import Mathlib

/-!
Shallow embedding of the maubot-fedora plugin (`fedora/__init__.py`).

Python exceptions are modelled as an explicit error type (`PyExn`), and every
operation that may talk to the FASJSON directory service also returns the list
of network calls it issued (`List NetCall`), so that "no network call" claims
are statements about an explicit trace.  The FASJSON client is an oracle
(`FasjsonClient`): each method maps its argument to the outcome the remote
service produced for this request (a value, an `APIError` with a code, or a
`ClientSetupError`).

String messages follow the source f-strings, except that single-quote
characters around interpolated values are elided.
-/

namespace Fedora

/-- A directory user record (the dict FASJSON returns for a user). -/
structure FasUser where
  username : String
  human_name : String
  pronouns : List String
  timezone : Option String
deriving DecidableEq, Repr

/-- Python exception outcomes relevant to this module.  `infoGather` is the
plugin's own `InfoGatherError` (the only exception the command handlers
catch); the others model built-in / library exceptions that escape. -/
inductive PyExn where
  | infoGather (message : String)
  | indexError
  | typeError (message : String)
  | unboundLocal (name : String)
  | apiError (code : Nat) (message : String)
  | clientSetupError (message : String)
deriving DecidableEq, Repr

/-- A network call to the FASJSON directory service. -/
inductive NetCall where
  | getUser (username : String)
  | search (term : String)
  | listGroupMembers (groupname : String)
  | listGroupSponsors (groupname : String)
deriving DecidableEq, Repr

/-- Outcome of one FASJSON client method call, as raised by the library. -/
inductive ApiResult (α : Type) where
  | ok (val : α)
  | apiError (code : Nat) (message : String)
  | clientSetupError (message : String)
deriving DecidableEq, Repr

/-- The FASJSON client handle, as an oracle from request to outcome. -/
structure FasjsonClient where
  get_user : String → ApiResult FasUser
  search : String → ApiResult (List FasUser)
  list_group_members : String → ApiResult (List FasUser)
  list_group_sponsors : String → ApiResult (List FasUser)

/-- The parts of a maubot MessageEvent the plugin reads. -/
structure MessageEvent where
  sender : String
  formatted_body : Option String
deriving DecidableEq, Repr

/-- `NL = "      \n"` from the source. -/
def NL : String := "      \n"

/-- An element of a Python list that is about to be joined: either a string
or a user record (dict).  `str.join` only accepts strings. -/
inductive PyListItem where
  | pstr (s : String)
  | pdict (u : FasUser)
deriving DecidableEq, Repr

/-- Extract the strings of a Python list, or `none` at the first non-string. -/
def itemStrings : List PyListItem → Option (List String)
  | [] => some []
  | PyListItem.pstr s :: rest => (itemStrings rest).map (fun l => s :: l)
  | PyListItem.pdict _ :: _ => none

/-- Python `sep.join(items)`: a string, or `TypeError` if an item is a dict. -/
def strJoin (sep : String) (items : List PyListItem) : Except PyExn String :=
  match itemStrings items with
  | some strs => Except.ok (String.intercalate sep strs)
  | none => Except.error (PyExn.typeError "expected str instance, dict found")

/-- Split a list of characters at its LAST colon (regex `(.*):(.*)` is
greedy, so the first group backtracks to the rightmost colon). -/
def splitLastColon : List Char → Option (List Char × List Char)
  | [] => none
  | c :: rest =>
    match splitLastColon rest with
    | some (l, r) => some (c :: l, r)
    | none => if c = ':' then some ([], rest) else none

/-- First match of `@(.*):(.*)` within one line: the first `@` that has a
colon after it on the line, split greedily at the last colon. -/
def lineParse : List Char → Option (String × String)
  | [] => none
  | c :: rest =>
    if c = '@' then
      match splitLastColon rest with
      | some (l, r) => some (String.mk l, String.mk r)
      | none => lineParse rest
    else lineParse rest

/-- Split a character list at every occurrence of `ch` (Python
`str.split(ch)` with a one-character separator: empty pieces are kept and
the empty input yields one empty piece). -/
def splitOnChar (ch : Char) : List Char → List (List Char)
  | [] => [[]]
  | c :: rest =>
    if c = ch then [] :: splitOnChar ch rest
    else
      match splitOnChar ch rest with
      | l :: ls => (c :: l) :: ls
      | [] => [[c]]

/-- `re.findall(r"@(.*):(.*)", s)[0]` (`.` does not cross newlines, so we
scan line by line; `none` models the empty findall, whose `[0]` raises
`IndexError`). -/
def matrixIdParse (s : String) : Option (String × String) :=
  (splitOnChar (Char.ofNat 10) s.data).findSome? lineParse

/-- Match a string literal as a prefix of the character list. -/
def stripLit : List Char → List Char → Option (List Char)
  | [], cs => some cs
  | _ :: _, [] => none
  | p :: ps, c :: cs => if c = p then stripLit ps cs else none

def squote : Char := Char.ofNat 39

def dquote : Char := Char.ofNat 34

/-- Characters ending the capture group of the mention regex. -/
def capStop (c : Char) : Bool :=
  c == squote || c == dquote || c == ' ' || c == '>'

/-- Try to match the mention regex
`href=[quote]?http[s]?://matrix.to/#/([^quotes >]+)` at the head of the list,
returning the capture and the remaining characters. -/
def tryMatchMention (l : List Char) : Option (String × List Char) := do
  let l1 ← stripLit "href=".data l
  let l2 := match l1 with
    | c :: rest => if c == squote || c == dquote then rest else l1
    | [] => l1
  let l3 ← stripLit "http".data l2
  let l4 := match l3 with
    | c :: rest => if c == 's' then rest else l3
    | [] => l3
  let l5 ← stripLit "://matrix".data l4
  let l6 ← match l5 with
    | c :: rest => if c == '\n' then none else some rest
    | [] => none
  let l7 ← stripLit "to/#/".data l6
  let cap := l7.takeWhile (fun c => ! capStop c)
  let rest := l7.dropWhile (fun c => ! capStop c)
  if cap.isEmpty then none else some (String.mk cap, rest)

/-- Fuelled scan for all non-overlapping mention matches, left to right. -/
def mentionFindallAux : Nat → List Char → List String
  | 0, _ => []
  | _, [] => []
  | Nat.succ fuel, c :: rest =>
    match tryMatchMention (c :: rest) with
    | some (cap, rest2) => cap :: mentionFindallAux fuel rest2
    | none => mentionFindallAux fuel rest

/-- `re.findall(r'href=...matrix.to/#/([^...]+)', s)`. -/
def mentionFindall (s : String) : List String :=
  mentionFindallAux s.data.length s.data

/-- Message raised by the wrapper when the client handle is `None`
(connection to FASJSON failed at plugin start). -/
def startupFailMsg : String :=
  "Sorry, I can not give you the required information. I failed to connect to FASJSON on startup"

/-- Literal prefix of the mid-run connection-failure message. -/
def midRunPre : String :=
  "Sorry, I can not give you the required information. I failed to connect to FASJSON: **"

/-- Message raised by the wrapper when a call raises `ClientSetupError`
mid-run (e.g. an expired kerberos ticket). -/
def midRunFailMsg (e : String) : String := midRunPre ++ e ++ "**"

/-- Second half of `catch_generic_fasjson_errors`: a `ClientSetupError`
escaping the body is converted to an `InfoGatherError`; everything else
(including `APIError` and built-in exceptions) passes through. -/
def wrapSetupError {α : Type} (r : Except PyExn α × List NetCall) :
    Except PyExn α × List NetCall :=
  match r with
  | (Except.error (PyExn.clientSetupError m), calls) =>
      (Except.error (PyExn.infoGather (midRunFailMsg m)), calls)
  | r => r

/-- The `catch_generic_fasjson_errors` decorator: fail up front when the
client handle is `None` (no call issued), otherwise run the body and
translate `ClientSetupError`. -/
def catch_generic_fasjson_errors {α : Type} (client : Option FasjsonClient)
    (body : FasjsonClient → Except PyExn α × List NetCall) :
    Except PyExn α × List NetCall :=
  match client with
  | none => (Except.error (PyExn.infoGather startupFailMsg), [])
  | some c => wrapSetupError (body c)

/-- `_get_person_by_username`: direct lookup.  On `APIError` the handler
only raises for code 404; for any other code it falls through to
`return person` with `person` unbound, i.e. `UnboundLocalError`. -/
def _get_person_by_username (c : FasjsonClient) (username : String) :
    Except PyExn FasUser × List NetCall :=
  match c.get_user username with
  | ApiResult.ok person => (Except.ok person, [NetCall.getUser username])
  | ApiResult.apiError code _ =>
    if code = 404 then
      (Except.error (PyExn.infoGather
        ("Sorry, but Fedora Accounts user " ++ username ++ " does not exist")),
       [NetCall.getUser username])
    else
      (Except.error (PyExn.unboundLocal "person"), [NetCall.getUser username])
  | ApiResult.clientSetupError m =>
      (Except.error (PyExn.clientSetupError m), [NetCall.getUser username])

/-- `_get_users_by_matrix_id`.  Python's `except ValueError or IndexError`
evaluates its clause to `ValueError` alone, so the `IndexError` raised by
`re.findall(...)[0]` on a malformed id escapes and the `InfoGatherError`
about valid matrix IDs is unreachable.  In the more-than-one-result branch
the source joins the result records themselves (`name for name in
searchresult`), so `str.join` raises `TypeError`. -/
def _get_users_by_matrix_id (c : FasjsonClient) (username : String) :
    Except PyExn FasUser × List NetCall :=
  match matrixIdParse username with
  | none => (Except.error PyExn.indexError, [])
  | some (matrix_username, matrix_server) =>
    if matrix_server = "fedora.im" then
      _get_person_by_username c matrix_username
    else
      let searchterm := "matrix://" ++ matrix_server ++ "/" ++ matrix_username
      match c.search searchterm with
      | ApiResult.apiError code m =>
          (Except.error (PyExn.apiError code m), [NetCall.search searchterm])
      | ApiResult.clientSetupError m =>
          (Except.error (PyExn.clientSetupError m), [NetCall.search searchterm])
      | ApiResult.ok searchresult =>
        if searchresult.length > 1 then
          match strJoin NL (searchresult.map PyListItem.pdict) with
          | Except.error e => (Except.error e, [NetCall.search searchterm])
          | Except.ok names =>
              (Except.error (PyExn.infoGather
                (toString searchresult.length ++ " Fedora Accounts users have the "
                  ++ username ++ " Matrix Account defined:" ++ NL ++ names)),
               [NetCall.search searchterm])
        else if searchresult.length = 0 then
          (Except.error (PyExn.infoGather
            ("No Fedora Accounts users have the " ++ username
              ++ " Matrix Account defined")),
           [NetCall.search searchterm])
        else
          match searchresult with
          | r :: _ => (Except.ok r, [NetCall.search searchterm])
          | [] => (Except.error PyExn.indexError, [NetCall.search searchterm])

/-- Body of `_get_fasuser` (inside the decorator). -/
def _get_fasuser_body (c : FasjsonClient) (username0 : String)
    (evt : MessageEvent) : Except PyExn FasUser × List NetCall :=
  let username := if username0 = "" then evt.sender else username0
  let mentionPath : Option (Except PyExn FasUser × List NetCall) :=
    match evt.formatted_body with
    | some fb =>
      if fb = "" then none
      else
        let u := mentionFindall fb
        if u.length > 1 then
          some (Except.error
            (PyExn.infoGather "Sorry, I can only look up one username at a time"), [])
        else
          match u with
          | [m] => some (_get_users_by_matrix_id c m)
          | _ => none
    | none => none
  match mentionPath with
  | some r => r
  | none =>
    let usernames := (splitOnChar ' ' username.data).map String.mk
    if usernames.length > 1 then
      (Except.error
        (PyExn.infoGather "Sorry, I can only look up one username at a time"), [])
    else
      let u0 := usernames.headD ""
      if (matrixIdParse u0).isSome then
        _get_users_by_matrix_id c u0
      else
        _get_person_by_username c u0

/-- `_get_fasuser`, with its decorator applied. -/
def _get_fasuser (client : Option FasjsonClient) (username : String)
    (evt : MessageEvent) : Except PyExn FasUser × List NetCall :=
  catch_generic_fasjson_errors client (fun c => _get_fasuser_body c username evt)

/-- Body of `_get_group_members` (inside the decorator); same fall-through
on a non-404 `APIError` as the user lookup (`members` ends up unbound). -/
def _get_group_members_body (c : FasjsonClient) (groupname : String) :
    Except PyExn (List FasUser) × List NetCall :=
  match c.list_group_members groupname with
  | ApiResult.ok ms => (Except.ok ms, [NetCall.listGroupMembers groupname])
  | ApiResult.apiError code _ =>
    if code = 404 then
      (Except.error (PyExn.infoGather
        ("Sorry, but group " ++ groupname ++ " does not exist")),
       [NetCall.listGroupMembers groupname])
    else
      (Except.error (PyExn.unboundLocal "members"),
       [NetCall.listGroupMembers groupname])
  | ApiResult.clientSetupError m =>
      (Except.error (PyExn.clientSetupError m), [NetCall.listGroupMembers groupname])

/-- `_get_group_members`, with its decorator applied. -/
def _get_group_members (client : Option FasjsonClient) (groupname : String) :
    Except PyExn (List FasUser) × List NetCall :=
  catch_generic_fasjson_errors client (fun c => _get_group_members_body c groupname)

/-- Body of `_get_group_sponsors` (inside the decorator). -/
def _get_group_sponsors_body (c : FasjsonClient) (groupname : String) :
    Except PyExn (List FasUser) × List NetCall :=
  match c.list_group_sponsors groupname with
  | ApiResult.ok ss => (Except.ok ss, [NetCall.listGroupSponsors groupname])
  | ApiResult.apiError code _ =>
    if code = 404 then
      (Except.error (PyExn.infoGather
        ("Sorry, but group " ++ groupname ++ " does not exist")),
       [NetCall.listGroupSponsors groupname])
    else
      (Except.error (PyExn.unboundLocal "sponsors"),
       [NetCall.listGroupSponsors groupname])
  | ApiResult.clientSetupError m =>
      (Except.error (PyExn.clientSetupError m), [NetCall.listGroupSponsors groupname])

/-- `_get_group_sponsors`, with its decorator applied. -/
def _get_group_sponsors (client : Option FasjsonClient) (groupname : String) :
    Except PyExn (List FasUser) × List NetCall :=
  catch_generic_fasjson_errors client (fun c => _get_group_sponsors_body c groupname)

/-- Outcome of a command handler: either it replied once with a text, or an
exception it did not catch escaped (no reply issued). -/
inductive HandlerOutcome where
  | replied (text : String)
  | raised (e : PyExn)
deriving DecidableEq, Repr

/-- `_userlink`: markdown link to the accounts page of a user. -/
def _userlink (accounts_baseurl username : String) : String :=
  "[" ++ username ++ "](" ++ accounts_baseurl ++ "user/" ++ username ++ ")"

/-- Reply text of `hello` on success. -/
def helloMessage (user : FasUser) : String :=
  let base := user.human_name ++ " (" ++ user.username ++ ")"
  if user.pronouns.isEmpty then base
  else base ++ " - " ++ String.intercalate " or " user.pronouns

/-- The `hello` command handler: only `InfoGatherError` is caught and turned
into a reply; any other exception escapes. -/
def hello (client : Option FasjsonClient) (evt : MessageEvent)
    (username : String) : HandlerOutcome :=
  match _get_fasuser client username evt with
  | (Except.ok user, _) => HandlerOutcome.replied (helloMessage user)
  | (Except.error (PyExn.infoGather m), _) => HandlerOutcome.replied m
  | (Except.error e, _) => HandlerOutcome.raised e

/-- Summarized reply of `members` for a list of more than 200. -/
def membersSummaryMsg (groupname : String) (n : Nat) : String :=
  groupname ++ " has " ++ toString n ++ " and thats too much to dump here"

/-- Enumerated reply of `members`. -/
def membersEnumMsg (base groupname : String) (ms : List FasUser) : String :=
  "Members of " ++ groupname ++ ": "
    ++ String.intercalate ", " (ms.map (fun m => _userlink base m.username))

/-- The `members` command handler. -/
def members (base : String) (client : Option FasjsonClient)
    (groupname : String) : HandlerOutcome :=
  if groupname = "" then
    HandlerOutcome.replied "groupname argument is required. e.g. `!members designteam`"
  else
    match _get_group_members client groupname with
    | (Except.error (PyExn.infoGather m), _) => HandlerOutcome.replied m
    | (Except.error e, _) => HandlerOutcome.raised e
    | (Except.ok ms, _) =>
      if ms.length > 200 then
        HandlerOutcome.replied (membersSummaryMsg groupname ms.length)
      else
        HandlerOutcome.replied (membersEnumMsg base groupname ms)

/-- Enumerated reply of `sponsors` (the only form it has). -/
def sponsorsEnumMsg (base groupname : String) (ss : List FasUser) : String :=
  "Sponsors of " ++ groupname ++ ": "
    ++ String.intercalate ", " (ss.map (fun s => _userlink base s.username))

/-- The `sponsors` command handler: no length check anywhere. -/
def sponsors (base : String) (client : Option FasjsonClient)
    (groupname : String) : HandlerOutcome :=
  if groupname = "" then
    HandlerOutcome.replied "groupname argument is required. e.g. `!sponsors designteam`"
  else
    match _get_group_sponsors client groupname with
    | (Except.error (PyExn.infoGather m), _) => HandlerOutcome.replied m
    | (Except.error e, _) => HandlerOutcome.raised e
    | (Except.ok ss, _) => HandlerOutcome.replied (sponsorsEnumMsg base groupname ss)

/-- The fields of the Pagure issue JSON body this module reads
(`dict.get` semantics: absent keys yield `None`). -/
structure PagureJson where
  error_code : Option String
  error : Option String
  title : Option String
  full_url : Option String
deriving DecidableEq, Repr

/-- An HTTP response from the issue tracker, with its parsed JSON body. -/
structure HttpResponse where
  status_code : Nat
  reason_phrase : String
  json : PagureJson
deriving DecidableEq, Repr

/-- How a Python f-string renders an `Optional[str]`: `None` or the bare text. -/
def pyShowOpt : Option String → String
  | none => "None"
  | some s => s

/-- Endpoint built by `_get_pagure_issue`. -/
def pagure_endpoint (pagure_url namespace_ project issue_id : String) : String :=
  pagure_url ++ String.intercalate "/" [namespace_, project, "issue", issue_id]

/-- `_get_pagure_issue`: maps the tracker response to the issue JSON or an
`InfoGatherError`, by status code and the structured `error_code` field. -/
def _get_pagure_issue (project issue_id : String) (resp : HttpResponse) :
    Except PyExn PagureJson :=
  if resp.status_code = 404 then
    if resp.json.error_code = some "ENOPROJECT" then
      Except.error (PyExn.infoGather ("Project " ++ project ++ " not found"))
    else if resp.json.error_code = some "ENOISSUE" then
      Except.error (PyExn.infoGather
        ("Issue #" ++ issue_id ++ " not found on " ++ project ++ " project"))
    else
      Except.error (PyExn.infoGather
        ("Issue querying Pagure: " ++ pyShowOpt resp.json.error_code ++ ": "
          ++ pyShowOpt resp.json.error))
  else if resp.status_code = 200 then
    Except.ok resp.json
  else
    Except.error (PyExn.infoGather
      ("Issue querying Pagure: " ++ toString resp.status_code ++ ": "
        ++ resp.reason_phrase))

/-- The `pagureissue` command handler: formats the issue from the `title`
and `full_url` fields of the JSON. -/
def pagureissue (project issue_id : String) (resp : HttpResponse) :
    HandlerOutcome :=
  match _get_pagure_issue project issue_id resp with
  | Except.error (PyExn.infoGather m) => HandlerOutcome.replied m
  | Except.error e => HandlerOutcome.raised e
  | Except.ok issue =>
      HandlerOutcome.replied
        ("[" ++ project ++ " #" ++ issue_id ++ "](" ++ pyShowOpt issue.full_url
          ++ "): " ++ pyShowOpt issue.title)

/-! Concrete records, clients and events used to instantiate the theorems. -/

/-- A sample directory user. -/
def aliceUser : FasUser :=
  { username := "alice", human_name := "Alice", pronouns := [], timezone := none }

/-- Another sample directory user. -/
def bobUser : FasUser :=
  { username := "bob", human_name := "Bob", pronouns := ["they", "them"],
    timezone := some "UTC" }

/-- A client whose search finds two records for every term, and whose user
lookup fails with a non-404 `APIError`. -/
def twoMatchClient : FasjsonClient :=
  { get_user := fun _ => ApiResult.apiError 500 "Internal Server Error"
    search := fun _ => ApiResult.ok [aliceUser, bobUser]
    list_group_members := fun _ => ApiResult.ok []
    list_group_sponsors := fun _ => ApiResult.ok [] }

/-- A client for the group handlers: group "big" has 201 members, every
other group 200; every group has 201 sponsors. -/
def groupsClient : FasjsonClient :=
  { get_user := fun u => ApiResult.ok { aliceUser with username := u }
    search := fun _ => ApiResult.ok [aliceUser]
    list_group_members := fun g =>
      if g = "big" then ApiResult.ok (List.replicate 201 aliceUser)
      else ApiResult.ok (List.replicate 200 aliceUser)
    list_group_sponsors := fun _ => ApiResult.ok (List.replicate 201 aliceUser) }

/-- An event whose rich-text body mentions one user via a matrix.to link
whose target is not of the `@localpart:domain` shape. -/
def oneMentionEvt : MessageEvent :=
  { sender := "@sender:fedora.im"
    formatted_body := some "<a href=\"https://matrix.to/#/zodbot\">zodbot</a>" }

/-- Rich-text body with two matrix.to mention links. -/
def twoMentionBody : String :=
  "<a href=\"https://matrix.to/#/@a:fedora.im\">a</a> and <a href=\"https://matrix.to/#/@b:fedora.im\">b</a>"

/-- An event carrying `twoMentionBody`. -/
def twoMentionEvt : MessageEvent :=
  { sender := "@sender:fedora.im", formatted_body := some twoMentionBody }

/-- A 404 tracker response with the project-not-found error code. -/
def respEnoproject : HttpResponse :=
  { status_code := 404, reason_phrase := "NOT FOUND"
    json := { error_code := some "ENOPROJECT", error := some "Project not found"
              title := none, full_url := none } }

/-! Helper lemmas. -/

/-- The direct lookup always issues exactly its one `get_user` call. -/
theorem _get_person_trace (c : FasjsonClient) (u : String) :
    (_get_person_by_username c u).2 = [NetCall.getUser u] := by
  unfold _get_person_by_username
  cases c.get_user u with
  | ok p => rfl
  | apiError code m => by_cases hc : code = 404 <;> simp [hc]
  | clientSetupError m => rfl

/-! Claim theorems. -/

/-- C1: for a chat identity whose domain is not the home server, the claim
says more than one search match yields an AmbiguousMatch failure listing
every candidate username; the code instead joins the result records
themselves with `str.join`, which raises `TypeError` (uncaught).  Here the
search for `@alice:example.com` returns two records and the resolution
terminates with the escaping `TypeError`, not an `InfoGatherError`. -/
theorem c1_ambiguous_search_raises_typeerror :
    _get_users_by_matrix_id twoMatchClient "@alice:example.com" =
      (Except.error (PyExn.typeError "expected str instance, dict found"),
       [NetCall.search "matrix://example.com/alice"]) := rfl

/-- C2: with an absent client handle, `_get_fasuser`, `_get_group_members`
and `_get_group_sponsors` all fail immediately with the startup
`InfoGatherError`, issue no network call, and the startup message is
distinct from every mid-run connection-failure message. -/
theorem c2_startup_guard :
    (∀ username evt, _get_fasuser none username evt =
      (Except.error (PyExn.infoGather startupFailMsg), [])) ∧
    (∀ g, _get_group_members none g =
      (Except.error (PyExn.infoGather startupFailMsg), [])) ∧
    (∀ g, _get_group_sponsors none g =
      (Except.error (PyExn.infoGather startupFailMsg), [])) ∧
    (∀ e, ¬ startupFailMsg = midRunFailMsg e) := by
  refine ⟨fun u evt => rfl, fun g => rfl, fun g => rfl, fun e h => ?_⟩
  have h2 := congrArg String.data h
  rw [midRunFailMsg, String.data_append, String.data_append] at h2
  have h3 := congrArg (List.take midRunPre.data.length) h2
  rw [List.append_assoc, List.take_left] at h3
  exact absurd h3 (by decide)

/-- C2 witness: the two messages differ at a concrete mid-run detail. -/
theorem c2_startup_guard_witness :
    ¬ startupFailMsg = midRunFailMsg "ticket expired" :=
  c2_startup_guard.2.2.2 "ticket expired"

/-- C3: the claim says a malformed identity string fails with an
InvalidFormat `InfoGatherError` stating the expected shape; the code's
`except ValueError or IndexError` catches only `ValueError`, so the
`IndexError` from `findall(...)[0]` escapes instead (the InvalidFormat
message is dead code).  No network call is issued, as claimed. -/
theorem c3_malformed_id_raises_indexerror :
    _get_users_by_matrix_id twoMatchClient "zodbot" =
      (Except.error PyExn.indexError, []) := rfl

/-- C4: a well-formed identity whose domain is the bot's home server
resolves exactly as the direct username lookup on the local part, and no
directory search call is issued. -/
theorem c4_fedora_im_fast_path (c : FasjsonClient) (s lp : String)
    (h : matrixIdParse s = some (lp, "fedora.im")) :
    _get_users_by_matrix_id c s = _get_person_by_username c lp ∧
    ∀ t, NetCall.search t ∉ (_get_users_by_matrix_id c s).2 := by
  have he : _get_users_by_matrix_id c s = _get_person_by_username c lp := by
    unfold _get_users_by_matrix_id
    rw [h]
    rfl
  refine ⟨he, fun t ht => ?_⟩
  rw [he, _get_person_trace] at ht
  simp at ht

/-- C4 witness at `@alice:fedora.im`. -/
theorem c4_fedora_im_fast_path_witness :
    _get_users_by_matrix_id groupsClient "@alice:fedora.im" =
      _get_person_by_username groupsClient "alice" :=
  (c4_fedora_im_fast_path groupsClient "@alice:fedora.im" "alice" rfl).1

/-- C5: when the rich-text body carries more than one mention link, the
resolution fails with the AmbiguousMatch message with no network call and
without inspecting the plain-text argument (the result does not depend on
it); with exactly one mention, that identity is resolved and the
plain-text argument is never parsed. -/
theorem c5_mentions_preempt_text (c : FasjsonClient) (username : String)
    (evt : MessageEvent) (fb : String) (u : List String)
    (hfb : evt.formatted_body = some fb) (hne : ¬ fb = "")
    (hu : mentionFindall fb = u) :
    (u.length > 1 → _get_fasuser (some c) username evt =
      (Except.error
        (PyExn.infoGather "Sorry, I can only look up one username at a time"), [])) ∧
    (∀ m, u = [m] → _get_fasuser (some c) username evt =
      wrapSetupError (_get_users_by_matrix_id c m)) := by
  constructor
  · intro hlen
    unfold _get_fasuser catch_generic_fasjson_errors _get_fasuser_body
    rw [hfb]
    simp only [hne, if_false, hu, if_pos hlen, ite_false]
    rfl
  · intro m hm
    unfold _get_fasuser catch_generic_fasjson_errors _get_fasuser_body
    rw [hfb]
    subst hm
    simp only [hne, if_false, hu, ite_false]
    rfl

/-- C5 witness: two mentions in the rich-text body. -/
theorem c5_mentions_preempt_text_witness :
    _get_fasuser (some groupsClient) "ignored" twoMentionEvt =
      (Except.error
        (PyExn.infoGather "Sorry, I can only look up one username at a time"), []) :=
  (c5_mentions_preempt_text groupsClient "ignored" twoMentionEvt twoMentionBody
    ["@a:fedora.im", "@b:fedora.im"] rfl (by decide) rfl).1 (by decide)

/-- C6: the claim says a non-404 service error yields UpstreamUnavailable;
the code's except handler raises only on code 404 and otherwise falls
through to `return person` with `person` never assigned, so the lookup
terminates with an escaping `UnboundLocalError`, which is neither a user
record nor an `InfoGatherError`. -/
theorem c6_non404_apierror_unboundlocal :
    _get_person_by_username twoMatchClient "alice" =
      (Except.error (PyExn.unboundLocal "person"), [NetCall.getUser "alice"]) := rfl

/-- C7: `_get_pagure_issue` maps a 404 with ENOPROJECT to the project
NotFound message, a 404 with ENOISSUE to the issue NotFound message
qualified by the project, any other 404 code to the raw code and message,
any other non-200 status to the numeric status and reason phrase, and a
200 to the issue JSON, which the handler formats from `title` and
`full_url`. -/
theorem c7_pagure_issue_mapping (project issue_id : String) (resp : HttpResponse) :
    (resp.status_code = 404 → resp.json.error_code = some "ENOPROJECT" →
      _get_pagure_issue project issue_id resp =
        Except.error (PyExn.infoGather ("Project " ++ project ++ " not found"))) ∧
    (resp.status_code = 404 → resp.json.error_code = some "ENOISSUE" →
      _get_pagure_issue project issue_id resp =
        Except.error (PyExn.infoGather
          ("Issue #" ++ issue_id ++ " not found on " ++ project ++ " project"))) ∧
    (resp.status_code = 404 → ¬ resp.json.error_code = some "ENOPROJECT" →
      ¬ resp.json.error_code = some "ENOISSUE" →
      _get_pagure_issue project issue_id resp =
        Except.error (PyExn.infoGather
          ("Issue querying Pagure: " ++ pyShowOpt resp.json.error_code ++ ": "
            ++ pyShowOpt resp.json.error))) ∧
    (¬ resp.status_code = 404 → ¬ resp.status_code = 200 →
      _get_pagure_issue project issue_id resp =
        Except.error (PyExn.infoGather
          ("Issue querying Pagure: " ++ toString resp.status_code ++ ": "
            ++ resp.reason_phrase))) ∧
    (resp.status_code = 200 →
      _get_pagure_issue project issue_id resp = Except.ok resp.json ∧
      pagureissue project issue_id resp =
        HandlerOutcome.replied
          ("[" ++ project ++ " #" ++ issue_id ++ "](" ++ pyShowOpt resp.json.full_url
            ++ "): " ++ pyShowOpt resp.json.title)) := by
  refine ⟨fun h404 hcode => ?_, fun h404 hcode => ?_,
          fun h404 hnp hni => ?_, fun hn404 hn200 => ?_, fun h200 => ?_⟩
  · simp [_get_pagure_issue, h404, hcode]
  · simp [_get_pagure_issue, h404, hcode]
  · simp [_get_pagure_issue, h404, hnp, hni]
  · simp [_get_pagure_issue, hn404, hn200]
  · have h404 : ¬ resp.status_code = 404 := by rw [h200]; decide
    have hi : _get_pagure_issue project issue_id resp = Except.ok resp.json := by
      simp [_get_pagure_issue, h404, h200]
    exact ⟨hi, by simp [pagureissue, hi]⟩

/-- C7 witness: a 404 with code ENOPROJECT for project `epel`. -/
theorem c7_pagure_issue_mapping_witness :
    _get_pagure_issue "epel" "123" respEnoproject =
      Except.error (PyExn.infoGather "Project epel not found") :=
  (c7_pagure_issue_mapping "epel" "123" respEnoproject).1 rfl rfl

/-- C8: a successfully fetched member list is summarized exactly when it has
more than 200 entries; in particular 200 members are enumerated and 201
members are summarized. -/
theorem c8_members_truncation (base g : String) (c : FasjsonClient)
    (ms : List FasUser) (hg : ¬ g = "")
    (hc : c.list_group_members g = ApiResult.ok ms) :
    members base (some c) g =
      HandlerOutcome.replied
        (if ms.length > 200 then membersSummaryMsg g ms.length
         else membersEnumMsg base g ms) ∧
    (ms.length = 200 →
      members base (some c) g = HandlerOutcome.replied (membersEnumMsg base g ms)) ∧
    (ms.length = 201 →
      members base (some c) g = HandlerOutcome.replied (membersSummaryMsg g 201)) := by
  have hm : _get_group_members (some c) g = (Except.ok ms, [NetCall.listGroupMembers g]) := by
    simp only [_get_group_members, catch_generic_fasjson_errors,
      _get_group_members_body, hc]
    rfl
  have key : members base (some c) g =
      HandlerOutcome.replied
        (if ms.length > 200 then membersSummaryMsg g ms.length
         else membersEnumMsg base g ms) := by
    unfold members
    rw [hm]
    by_cases hb : ms.length > 200 <;> simp [hg, hb]
  refine ⟨key, fun h200 => ?_, fun h201 => ?_⟩
  · rw [key, h200]
    simp
  · rw [key, h201]
    simp

/-- C8 witness: 201 members are summarized, 200 are enumerated. -/
theorem c8_members_truncation_witness :
    members "b/" (some groupsClient) "big" =
      HandlerOutcome.replied (membersSummaryMsg "big" 201) ∧
    members "b/" (some groupsClient) "small" =
      HandlerOutcome.replied (membersEnumMsg "b/" "small" (List.replicate 200 aliceUser)) :=
  ⟨(c8_members_truncation "b/" "big" groupsClient (List.replicate 201 aliceUser)
      (by decide) rfl).2.2 rfl,
   (c8_members_truncation "b/" "small" groupsClient (List.replicate 200 aliceUser)
      (by decide) rfl).2.1 rfl⟩

/-- C9: the claim says every command handler always issues exactly one
reply and never lets an exception past the reply boundary; `hello` with a
rich-text mention whose target is not of the `@localpart:domain` shape
terminates with an escaping `IndexError` and no reply. -/
theorem c9_handler_exception_escapes :
    hello (some twoMatchClient) oneMentionEvt "" =
      HandlerOutcome.raised PyExn.indexError := rfl

/-- C10: the sponsors reply always enumerates the fetched sponsor list,
whatever its length; the more-than-200 summarization exists only in the
members handler. -/
theorem c10_sponsors_never_truncated (base g : String) (c : FasjsonClient)
    (ss : List FasUser) (hg : ¬ g = "")
    (hc : c.list_group_sponsors g = ApiResult.ok ss) :
    sponsors base (some c) g = HandlerOutcome.replied (sponsorsEnumMsg base g ss) := by
  have hs : _get_group_sponsors (some c) g = (Except.ok ss, [NetCall.listGroupSponsors g]) := by
    simp only [_get_group_sponsors, catch_generic_fasjson_errors,
      _get_group_sponsors_body, hc]
    rfl
  unfold sponsors
  rw [hs]
  simp [hg]

/-- C10 witness: a sponsor list of 201 entries is still enumerated. -/
theorem c10_sponsors_never_truncated_witness :
    sponsors "b/" (some groupsClient) "g" =
      HandlerOutcome.replied (sponsorsEnumMsg "b/" "g" (List.replicate 201 aliceUser)) :=
  c10_sponsors_never_truncated "b/" "g" groupsClient (List.replicate 201 aliceUser)
    (by decide) rfl

end Fedora
